import Mathlib

/-!
Verification of the GitHub release fetcher (`grf.py`).

The development shallowly embeds the program's core functions:

* `GRF.resolveReference` — the URL-normalisation part of `fetch_release_data`
  (lines 99–123): recognising the API-style and web-style URL shapes,
  extracting owner and repo, extracting an embedded release tag and
  detecting conflicting tag specifications.
* `GRF.fetch_release_data` — resolution followed by construction of the
  API endpoint and a single (modelled) network call (lines 125–137).
* `GRF.filter_assets` — the include/exclude selection (lines 139–150).
* `GRF.download_file_with_progress` — the resumable download engine
  (lines 41–94), with the filesystem, the HTTP layer and wall-clock time
  made explicit parameters.
* `GRF.downloadAssets` — the per-asset download loop of `main`
  (lines 185–189).

Python strings are modelled as `String` (lists of characters), Python's
`str.split`, `in`, `str.strip` and truthiness by the `py*` functions below,
written to be structurally recursive so that every definition evaluates
inside the kernel.
-/

namespace GRF

/-- Python truthiness of an optional integer: `None` and `0` are falsy. -/
def pyTruthyNat : Option Nat → Bool
  | none => false
  | some n => n != 0

/-- Python truthiness of an optional string: `None` and `""` are falsy. -/
def pyTruthyStr : Option String → Bool
  | none => false
  | some s => !(s == "")

/-- Python truthiness of an optional list: `None` and `[]` are falsy. -/
def pyTruthyList {α : Type} : Option (List α) → Bool
  | none => false
  | some l => !l.isEmpty

/-- Worker for `pySplit`: Python `str.split(sep)` on character lists.
The fuel argument equals the length of the remaining input at the first
call; the two base cases agree, so the fuel is exactly sufficient. -/
def pySplitAux (sep : List Char) : Nat → List Char → List Char → List (List Char)
  | 0, acc, _ => [acc.reverse]
  | _ + 1, acc, [] => [acc.reverse]
  | fuel + 1, acc, c :: rest =>
    if !sep.isEmpty && sep.isPrefixOf (c :: rest) then
      acc.reverse :: pySplitAux sep fuel [] (List.drop (sep.length - 1) rest)
    else
      pySplitAux sep fuel (c :: acc) rest

/-- Python `s.split(sep)` for a non-empty separator, on character lists. -/
def pySplit (sep s : List Char) : List (List Char) :=
  pySplitAux sep s.length [] s

/-- Python `sub in s` (substring containment), on character lists. -/
def pyIn (sub : List Char) : List Char → Bool
  | [] => sub.isEmpty
  | c :: rest => sub.isPrefixOf (c :: rest) || pyIn sub rest

/-- Python `s.strip(c)` for a single strip character, on character lists. -/
def pyStripChar (c : Char) (s : List Char) : List Char :=
  ((s.dropWhile (· == c)).reverse.dropWhile (· == c)).reverse

/-- Python `s.startswith(pre)`. -/
def pyStartsWith (pre s : String) : Bool :=
  pre.toList.isPrefixOf s.toList

/-- Python `s[len(pre):]`: drop as many characters as `pre` has. -/
def pyDropLen (pre s : String) : String :=
  String.mk (s.toList.drop pre.toList.length)

/-- Python `s.split(sep)` on strings. -/
def pySplitStr (sep s : String) : List String :=
  (pySplit sep.toList s.toList).map String.mk

/-- Python `sub in s` on strings. -/
def pyInStr (sub s : String) : Bool :=
  pyIn sub.toList s.toList

/-- Python `s.strip("/")`. -/
def pyStripSlashes (s : String) : String :=
  String.mk (pyStripChar '/' s.toList)

/-- The API-style URL shape recognised first (line 99 of `grf.py`). -/
def apiUrlStart : String := "https://api.github.com/repos/"

/-- The web-style URL shape recognised second (line 106 of `grf.py`). -/
def webUrlStart : String := "https://github.com/"

/-- The marker of an embedded release tag in a web URL (line 115). -/
def releasesTagMarker : String := "releases/tag/"

/-- `repo_url[len("https://api.github.com/repos/"):].split("/")` (line 101). -/
def apiParts (url : String) : List String :=
  pySplitStr ("/") (pyDropLen apiUrlStart url)

/-- `repo_url[len("https://github.com/"):].split("/")` (line 108). -/
def webParts (url : String) : List String :=
  pySplitStr ("/") (pyDropLen webUrlStart url)

/-- `repo_url.split("releases/tag/")[-1].strip("/")` (line 116). -/
def urlReleaseTag (url : String) : String :=
  pyStripSlashes ((pySplitStr releasesTagMarker url).getLastD (""))

/-- `release_tag and release_tag != url_release_tag` (line 117): Python
truthiness of the optional tag, then inequality with the embedded tag. -/
def tagConflict (release_tag : Option String) (url_tag : String) : Bool
  := match release_tag with
  | none => false
  | some t => !(t == "") && !(t == url_tag)

/-- The conflicting-tags message printed on line 118 of `grf.py`. -/
def conflictMsg (url_tag t : String) : String :=
  "Error: Conflicting release tags. URL specifies " ++ url_tag ++
    ", but --release specifies " ++ t ++ "."

/-- The URL-normalisation part of `fetch_release_data` (lines 99–123):
returns the `(owner, repo, tag)` triple, or the message the program prints
before `sys.exit(1)`. -/
def resolveReference (repo_url : String) (release_tag : Option String) :
    Except String (String × String × Option String) :=
  if pyStartsWith apiUrlStart repo_url then
    let parts := apiParts repo_url
    if parts.length < 2 then
      .error ("Invalid GitHub API URL.")
    else
      .ok (parts.getD 0 "", parts.getD 1 "", release_tag)
  else if pyStartsWith webUrlStart repo_url then
    let parts := webParts repo_url
    if parts.length < 2 then
      .error ("Invalid GitHub repository URL.")
    else if pyInStr releasesTagMarker repo_url then
      let url_tag := urlReleaseTag repo_url
      if tagConflict release_tag url_tag then
        .error (conflictMsg url_tag (release_tag.getD ("")))
      else
        .ok (parts.getD 0 "", parts.getD 1 "", some url_tag)
    else
      .ok (parts.getD 0 "", parts.getD 1 "", release_tag)
  else
    .error ("Unsupported URL format. Please provide a GitHub repository or API URL.")

/-- One downloadable asset of a release manifest (`name`, `size`,
`browser_download_url` fields used by `grf.py`). -/
structure Asset where
  name : String
  size : Nat
  browser_download_url : String
deriving DecidableEq

/-- The release manifest fields `grf.py` reads: `tag_name` and `assets`. -/
structure ReleaseManifest where
  tag_name : String
  assets : List Asset
deriving DecidableEq

/-- The API endpoint built on lines 126–130 of `grf.py`. -/
def buildApiUrl (owner repo : String) (tag : Option String) : String :=
  let base := apiUrlStart ++ owner ++ "/" ++ repo ++ "/releases"
  match tag with
  | some t => base ++ "/tags/" ++ t
  | none => base ++ "/latest"

/-- `fetch_release_data` (lines 96–137): resolve the reference, build the
endpoint, perform the (modelled) API call.  The second component records
every network request issued, so that "no network call is made" is a
statement of the model. -/
def fetch_release_data (apiFetch : String → Except String ReleaseManifest)
    (repo_url : String) (release_tag : Option String) :
    Except String ReleaseManifest × List String :=
  match resolveReference repo_url release_tag with
  | .error e => (.error e, [])
  | .ok (owner, repo, tag) =>
    let api_url := buildApiUrl owner repo tag
    match apiFetch api_url with
    | .ok m => (.ok m, [api_url])
    | .error e => (.error ("Error fetching release data: " ++ e), [api_url])

/-- `filter_assets` (lines 139–150), with Python truthiness of the two
optional name lists. -/
def filter_assets (assets : List Asset) (incl excl : Option (List String)) :
    Except String (List Asset) :=
  if pyTruthyList incl && pyTruthyList excl then
    .error ("Error: --include and --exclude are mutually exclusive.")
  else if pyTruthyList incl then
    .ok (assets.filter (fun a => (incl.getD []).contains a.name))
  else if pyTruthyList excl then
    .ok (assets.filter (fun a => !(excl.getD []).contains a.name))
  else
    .ok assets

/-- The network request issued by `download_file_with_progress`:
`range = some n` models the header `Range: bytes={n}-` built on line 50 of
`grf.py`; `range = none` models the plain request of line 54. -/
structure HttpRequest where
  url : String
  range : Option Nat
deriving DecidableEq

/-- The server's answer to a successful `urlopen`: the value of the
`Content-Length` header (absent ⇒ the code substitutes `0`, line 59), the
successive non-final results of `response.read` (line 65; a read returning
an empty chunk ends the loop), and an optional `HTTPError`/`URLError`
raised by a read after all listed chunks were delivered. -/
structure StreamResponse where
  contentLength : Option Nat
  chunks : List (List Nat)
  streamError : Option String
deriving DecidableEq

/-- Outcome of `urlopen` itself (line 58): a response, or an
`HTTPError`/`URLError` raised before the target file is opened. -/
inductive NetResult where
  | success (r : StreamResponse)
  | connFailure (e : String)
deriving DecidableEq

/-- The observable outcome of one call of `download_file_with_progress`:
`alreadyComplete` is the early return of line 49, `completed` the
`Done:` print of line 91, `sizeMismatch` the mismatch print of line 89,
`transferFailed` the caught `HTTPError`/`URLError` of line 94, and
`crashed` an exception the `except` clause does not catch (the
`ZeroDivisionError` of line 71 when `file_size` is zero). -/
inductive DownloadOutcome where
  | alreadyComplete
  | completed
  | sizeMismatch
  | transferFailed (e : String)
  | crashed (e : String)
deriving DecidableEq

/-- One progress observation emitted after a chunk (lines 70–83):
the cumulative byte counter, the elapsed wall-clock time of line 74, and
the download speed of line 75. -/
structure ProgressObs where
  bytesSoFar : Nat
  elapsed : ℚ
  speed : ℚ
deriving DecidableEq

/-- `bytes_so_far / elapsed_time if elapsed_time > 0 else 0` (line 75). -/
def pySpeed (bytesSoFar : Nat) (elapsed : ℚ) : ℚ :=
  if 0 < elapsed then (bytesSoFar : ℚ) / elapsed else 0

/-- How the streaming loop of lines 64–84 ended. -/
inductive StreamStatus where
  | ranOff
  | brokeEarly
  | crashed
deriving DecidableEq

/-- The `while True` loop of lines 64–84: successive chunks are appended
to the file content; the loop stops at the end of the stream (`ranOff`),
at an empty chunk (`brokeEarly`, line 66), or with the uncaught
`ZeroDivisionError` of the `percent_complete` computation (line 71) when
`file_size` is zero (`crashed`).  `times i` is the value of
`time.time() - start_time` observed after the `i`-th chunk. -/
def streamLoop (times : Nat → ℚ) (file_size : Nat) :
    List (List Nat) → List Nat → Nat → Nat →
    List Nat × List ProgressObs × StreamStatus
  | [], content, _, _ => (content, [], .ranOff)
  | c :: rest, content, bytesSoFar, i =>
    if c.isEmpty then
      (content, [], .brokeEarly)
    else
      let content' := content ++ c
      let bytes' := bytesSoFar + c.length
      if file_size = 0 then
        (content', [], .crashed)
      else
        let obs : ProgressObs := ⟨bytes', times i, pySpeed bytes' (times i)⟩
        match streamLoop times file_size rest content' bytes' (i + 1) with
        | (content'', obss, st) => (content'', obs :: obss, st)

/-- Result of one call of `download_file_with_progress`: its outcome, the
content of the target file afterwards (`none` when the file still does not
exist), the network request it issued (if any), and the emitted progress
observations. -/
structure DownloadResult where
  outcome : DownloadOutcome
  file : Option (List Nat)
  request : Option HttpRequest
  progress : List ProgressObs
deriving DecidableEq

/-- The condition of line 47 of `grf.py`:
`expected_size and existing_size == expected_size` — Python truthiness of
`expected_size` (`None` and `0` are falsy), then equality with the size on
disk. -/
def skipCond (expected_size : Option Nat) (existing_size : Nat) : Prop :=
  pyTruthyNat expected_size = true ∧ expected_size = some existing_size

instance (e : Option Nat) (n : Nat) : Decidable (skipCond e n) := by
  unfold skipCond
  infer_instance

/-- The condition of line 88 of `grf.py`:
`expected_size and os.path.getsize(target_path) != expected_size`. -/
def verifyFailCond (expected_size : Option Nat) (disk_size : Nat) : Prop :=
  pyTruthyNat expected_size = true ∧ expected_size ≠ some disk_size

instance (e : Option Nat) (n : Nat) : Decidable (verifyFailCond e n) := by
  unfold verifyFailCond
  infer_instance

/-- The size verification of lines 87–91: Python truthiness of
`expected_size`, then comparison with the on-disk size. -/
def verifyResult (expected_size : Option Nat) (content : List Nat)
    (req : HttpRequest) (progress : List ProgressObs) : DownloadResult :=
  if verifyFailCond expected_size content.length then
    ⟨.sizeMismatch, some content, some req, progress⟩
  else
    ⟨.completed, some content, some req, progress⟩

/-- Lines 58–91 of `grf.py`: `urlopen`, the streaming loop, and the size
verification.  `base` is the content the opened file starts with (the
existing content in mode `"ab"`, `[]` in mode `"wb"`); `origFile` the file
content before the call (`urlopen` raising means the file is never
opened, so a fresh download that fails to connect creates no file). -/
def runTransfer (times : Nat → ℚ) (net : HttpRequest → NetResult)
    (req : HttpRequest) (base : List Nat) (existing_size : Nat)
    (expected_size : Option Nat) (origFile : Option (List Nat)) :
    DownloadResult :=
  match net req with
  | .connFailure e => ⟨.transferFailed e, origFile, some req, []⟩
  | .success resp =>
    let file_size := resp.contentLength.getD 0 + existing_size
    match streamLoop times file_size resp.chunks base existing_size 0 with
    | (content, progress, .crashed) =>
      ⟨.crashed ("ZeroDivisionError"), some content, some req, progress⟩
    | (content, progress, .brokeEarly) =>
      verifyResult expected_size content req progress
    | (content, progress, .ranOff) =>
      match resp.streamError with
      | some e => ⟨.transferFailed e, some content, some req, progress⟩
      | none => verifyResult expected_size content req progress

/-- `download_file_with_progress` (lines 41–94).  `existingFile` is the
current content of the target path (`none` when the path does not
exist). -/
def download_file_with_progress (times : Nat → ℚ) (net : HttpRequest → NetResult)
    (url : String) (existingFile : Option (List Nat))
    (expected_size : Option Nat) : DownloadResult :=
  match existingFile with
  | some content =>
    let existing_size := content.length
    if skipCond expected_size existing_size then
      ⟨.alreadyComplete, some content, none, []⟩
    else
      runTransfer times net ⟨url, some existing_size⟩ content existing_size
        expected_size (some content)
  | none =>
    runTransfer times net ⟨url, none⟩ [] 0 expected_size none

/-- The local filesystem, as an association list from paths to byte
contents. -/
def FileSystem : Type := List (String × List Nat)

/-- `os.path.exists` / reading a file: the content stored at a path. -/
def FileSystem.lookup (fs : FileSystem) (p : String) : Option (List Nat) :=
  match List.find? (fun e => e.1 == p) fs with
  | some e => some e.2
  | none => none

/-- Writing a file at a path. -/
def FileSystem.setFile (fs : FileSystem) (p : String) (c : List Nat) :
    FileSystem :=
  (p, c) :: List.filter (fun e => e.1 != p) fs

/-- The download loop of `main` (lines 185–189): one
`download_file_with_progress` call per asset, target path
`os.path.join(output_dir, asset["name"])`, expected size `asset["size"]`.
Outcomes are collected per asset name; an uncaught exception
(`DownloadOutcome.crashed`) propagates out of the loop, so the remaining
assets are not processed. -/
def downloadAssets (times : Nat → ℚ) (net : HttpRequest → NetResult)
    (output_dir : String) :
    List Asset → FileSystem → FileSystem × List (String × DownloadOutcome)
  | [], fs => (fs, [])
  | a :: rest, fs =>
    let path := output_dir ++ "/" ++ a.name
    let r := download_file_with_progress times net a.browser_download_url
      (fs.lookup path) (some a.size)
    let fs' := match r.file with
      | some c => fs.setFile path c
      | none => fs
    match r.outcome with
    | .crashed e => (fs', [(a.name, .crashed e)])
    | o =>
      match downloadAssets times net output_dir rest fs' with
      | (fs'', outs) => (fs'', (a.name, o) :: outs)

/-! ## Helper lemmas about the download engine -/

/-- Whatever happens during streaming, the file content only ever grows:
the loop writes by appending (mode `"ab"`/sequential writes), it never
truncates or rewrites the bytes it started from. -/
theorem streamLoop_file_append (times : Nat → ℚ) (fsz : Nat) :
    ∀ (chunks : List (List Nat)) (base : List Nat) (b i : Nat),
      ∃ t, (streamLoop times fsz chunks base b i).1 = base ++ t := by
  intro chunks
  induction chunks with
  | nil =>
    intro base b i
    exact ⟨[], by simp [streamLoop]⟩
  | cons c rest ih =>
    intro base b i
    by_cases hcb : c.isEmpty
    · exact ⟨[], by simp [streamLoop, hcb]⟩
    · by_cases hfz : fsz = 0
      · exact ⟨c, by simp [streamLoop, hcb, hfz]⟩
      · obtain ⟨t, ht⟩ := ih (base ++ c) (b + c.length) (i + 1)
        rcases hres : streamLoop times fsz rest (base ++ c) (b + c.length) (i + 1)
          with ⟨cnt, prog, st⟩
        rw [hres] at ht
        simp only at ht
        refine ⟨c ++ t, ?_⟩
        simp [streamLoop, hcb, hfz, hres, ht, List.append_assoc]

/-- When no chunk is empty and `file_size` is not zero (or there are no
chunks at all), the loop consumes the whole stream: the final content is
the starting content followed by all chunks, and the loop ends by stream
exhaustion. -/
theorem streamLoop_ranOff (times : Nat → ℚ) (fsz : Nat) :
    ∀ (chunks : List (List Nat)) (base : List Nat) (b i : Nat),
      (∀ c ∈ chunks, c ≠ []) → (fsz ≠ 0 ∨ chunks = []) →
      (streamLoop times fsz chunks base b i).1 = base ++ chunks.join ∧
      (streamLoop times fsz chunks base b i).2.2 = .ranOff := by
  intro chunks
  induction chunks with
  | nil =>
    intro base b i _ _
    simp [streamLoop]
  | cons c rest ih =>
    intro base b i hc hf
    have hcne : c ≠ [] := hc c (by simp)
    have hcb : c.isEmpty = false := by
      simpa [List.isEmpty_iff] using hcne
    have hfz : fsz ≠ 0 := by
      rcases hf with h | h
      · exact h
      · simp at h
    obtain ⟨h1, h2⟩ := ih (base ++ c) (b + c.length) (i + 1)
      (fun x hx => hc x (by simp [hx])) (Or.inl hfz)
    rcases hres : streamLoop times fsz rest (base ++ c) (b + c.length) (i + 1)
      with ⟨cnt, prog, st⟩
    rw [hres] at h1 h2
    simp only at h1 h2
    constructor
    · simp [streamLoop, hcb, hfz, hres, h1]
    · simp [streamLoop, hcb, hfz, hres, h2]

/-- Every progress observation the loop emits reports the cumulative byte
counter (which starts at the pre-existing size `b`) and the speed computed
from that counter by the zero-guarded division of line 75. -/
theorem streamLoop_progress (times : Nat → ℚ) (fsz : Nat) :
    ∀ (chunks : List (List Nat)) (base : List Nat) (b i : Nat),
      ∀ obs ∈ (streamLoop times fsz chunks base b i).2.1,
        ∃ moved, obs.bytesSoFar = b + moved ∧
          obs.speed = pySpeed (b + moved) obs.elapsed := by
  intro chunks
  induction chunks with
  | nil =>
    intro base b i obs h
    simp [streamLoop] at h
  | cons c rest ih =>
    intro base b i obs h
    by_cases hcb : c.isEmpty
    · simp [streamLoop, hcb] at h
    · by_cases hfz : fsz = 0
      · simp [streamLoop, hcb, hfz] at h
      · rcases hres : streamLoop times fsz rest (base ++ c) (b + c.length) (i + 1)
          with ⟨cnt, prog, st⟩
        simp [streamLoop, hcb, hfz, hres] at h
        rcases h with h | h
        · refine ⟨c.length, ?_, ?_⟩
          · rw [h]
          · rw [h]
        · have := ih (base ++ c) (b + c.length) (i + 1) obs (by rw [hres]; exact h)
          obtain ⟨m, hm1, hm2⟩ := this
          refine ⟨c.length + m, ?_, ?_⟩
          · rw [hm1, Nat.add_assoc]
          · rw [hm2, Nat.add_assoc]

/-- `verifyResult` reports the file it verified. -/
theorem verifyResult_file (e : Option Nat) (c : List Nat) (r : HttpRequest)
    (p : List ProgressObs) : (verifyResult e c r p).file = some c := by
  unfold verifyResult
  split <;> rfl

/-- `verifyResult` reports the request of the transfer it verified. -/
theorem verifyResult_request (e : Option Nat) (c : List Nat) (r : HttpRequest)
    (p : List ProgressObs) : (verifyResult e c r p).request = some r := by
  unfold verifyResult
  split <;> rfl

/-- `verifyResult` keeps the progress observations of the transfer. -/
theorem verifyResult_progress (e : Option Nat) (c : List Nat) (r : HttpRequest)
    (p : List ProgressObs) : (verifyResult e c r p).progress = p := by
  unfold verifyResult
  split <;> rfl

/-- When the existing file does not pass the skip check of line 47, the
engine proceeds to a ranged transfer in append mode. -/
theorem download_resume_transfer (times : Nat → ℚ) (net : HttpRequest → NetResult)
    (url : String) (content : List Nat) (expected : Option Nat)
    (hs : ¬ skipCond expected content.length) :
    download_file_with_progress times net url (some content) expected =
      runTransfer times net ⟨url, some content.length⟩ content content.length
        expected (some content) := by
  simp [download_file_with_progress, hs]

/-- A successful response whose chunks are all non-empty and whose total
size is not zero (unless there are no chunks) is streamed to the end:
the transfer appends all chunks and then reaches the error check of the
final read and the size verification. -/
theorem runTransfer_ranOff (times : Nat → ℚ) (net : HttpRequest → NetResult)
    (req : HttpRequest) (base : List Nat) (expected : Option Nat)
    (orig : Option (List Nat)) (resp : StreamResponse)
    (hnet : net req = .success resp)
    (hch : ∀ c ∈ resp.chunks, c ≠ [])
    (hfz : resp.contentLength.getD 0 + base.length ≠ 0 ∨ resp.chunks = []) :
    ∃ progress,
      runTransfer times net req base base.length expected orig =
        match resp.streamError with
        | some e =>
          ⟨.transferFailed e, some (base ++ resp.chunks.join), some req, progress⟩
        | none => verifyResult expected (base ++ resp.chunks.join) req progress := by
  obtain ⟨h1, h2⟩ := streamLoop_ranOff times (resp.contentLength.getD 0 + base.length)
    resp.chunks base base.length 0 hch hfz
  rcases hres : streamLoop times (resp.contentLength.getD 0 + base.length)
      resp.chunks base base.length 0 with ⟨cnt, prog, st⟩
  rw [hres] at h1 h2
  subst h1 h2
  exact ⟨prog, by simp [runTransfer, hnet, hres]⟩

/-- Looking up a path just written returns the written content. -/
theorem FileSystem.lookup_setFile (fs : FileSystem) (p : String) (c : List Nat) :
    (fs.setFile p c).lookup p = some c := by
  simp [FileSystem.lookup, FileSystem.setFile, List.find?]

/-- The request `download_file_with_progress` sends for a given state of
the target path: ranged at the existing size when the file exists
(line 50), plain otherwise (line 54). -/
def requestFor (url : String) (existingFile : Option (List Nat)) : HttpRequest :=
  ⟨url, existingFile.map List.length⟩

/-- When the skip check of line 47 does not fire, the engine runs a
transfer whose request, starting content and original file state are
determined by the existing file. -/
theorem download_transfer (times : Nat → ℚ) (net : HttpRequest → NetResult)
    (url : String) (existingFile : Option (List Nat)) (expected : Option Nat)
    (hs : ∀ c, existingFile = some c → ¬ skipCond expected c.length) :
    download_file_with_progress times net url existingFile expected =
      runTransfer times net (requestFor url existingFile) (existingFile.getD [])
        (existingFile.getD []).length expected existingFile := by
  cases existingFile with
  | none => rfl
  | some c =>
    simp [download_file_with_progress, hs c rfl, requestFor]

/-- For a positive expected size, the verification of lines 87–91 is a
genuine size comparison: equality yields `completed`, anything else
`sizeMismatch`. -/
theorem verifyResult_outcome_pos (n : Nat) (hn : 0 < n) (c : List Nat)
    (r : HttpRequest) (p : List ProgressObs) :
    (verifyResult (some n) c r p).outcome =
      if c.length = n then .completed else .sizeMismatch := by
  by_cases h : c.length = n
  · have hv : ¬ verifyFailCond (some n) c.length := by
      simp [verifyFailCond, h]
    unfold verifyResult
    rw [if_neg hv, if_pos h]
  · have hv : verifyFailCond (some n) c.length := by
      refine ⟨?_, ?_⟩
      · simp only [pyTruthyNat, bne_iff_ne, ne_eq, decide_eq_true_eq]
        omega
      · simp only [ne_eq, Option.some.injEq]
        omega
    unfold verifyResult
    rw [if_pos hv, if_neg h]

/-- Unfolding of the download loop of `main` at an asset whose download
does not raise an uncaught exception: the asset's outcome is recorded and
the loop continues with the remaining assets on the updated filesystem. -/
theorem downloadAssets_cons (times : Nat → ℚ) (net : HttpRequest → NetResult)
    (dir : String) (a : Asset) (rest : List Asset) (fs fs' : FileSystem)
    (r : DownloadResult)
    (hr : download_file_with_progress times net a.browser_download_url
        (fs.lookup (dir ++ "/" ++ a.name)) (some a.size) = r)
    (hfs : fs' = (match r.file with
      | some c => fs.setFile (dir ++ "/" ++ a.name) c
      | none => fs))
    (hnc : ∀ e, r.outcome ≠ .crashed e) :
    downloadAssets times net dir (a :: rest) fs =
      ((downloadAssets times net dir rest fs').1,
        (a.name, r.outcome) :: (downloadAssets times net dir rest fs').2) := by
  subst hfs
  rcases hrec : downloadAssets times net dir rest
      (match r.file with
        | some c => fs.setFile (dir ++ "/" ++ a.name) c
        | none => fs) with ⟨fs2, outs⟩
  simp only [downloadAssets, hr, hrec]

/-! ## The claims -/

/-- C1: for every download where the target file already exists with a
size strictly smaller than the declared size, the engine issues a range
request starting exactly at the existing byte offset (`range = some
existing_size` models the header `bytes={existing_size}-`), appends the
response body to the existing file, and the final on-disk size equals
existing-size + response-content-length. -/
theorem C1_resume_range_append (times : Nat → ℚ) (net : HttpRequest → NetResult)
    (url : String) (content : List Nat) (n : Nat) (resp : StreamResponse)
    (hsz : content.length < n)
    (hnet : net ⟨url, some content.length⟩ = .success resp)
    (herr : resp.streamError = none)
    (hch : ∀ c ∈ resp.chunks, c ≠ [])
    (hcl : resp.contentLength = some resp.chunks.join.length) :
    (download_file_with_progress times net url (some content) (some n)).request
      = some ⟨url, some content.length⟩ ∧
    (download_file_with_progress times net url (some content) (some n)).file
      = some (content ++ resp.chunks.join) ∧
    (content ++ resp.chunks.join).length
      = content.length + resp.contentLength.getD 0 := by
  have hs : ¬ skipCond (some n) content.length := by
    simp only [skipCond, pyTruthyNat, Option.some.injEq, not_and]
    intro _ h
    omega
  have hfz : resp.contentLength.getD 0 + content.length ≠ 0 ∨ resp.chunks = [] := by
    rcases hc : resp.chunks with _ | ⟨c, rest⟩
    · exact Or.inr rfl
    · left
      have hcne : c ≠ [] := hch c (by rw [hc]; simp)
      have hpos : 0 < c.length := List.length_pos.mpr hcne
      rw [hcl, hc]
      simp only [Option.getD_some, List.join_cons, List.length_append]
      omega
  rw [download_resume_transfer times net url content (some n) hs]
  obtain ⟨progress, hrun⟩ := runTransfer_ranOff times net ⟨url, some content.length⟩
    content (some n) (some content) resp hnet hch hfz
  rw [hrun, herr]
  refine ⟨verifyResult_request _ _ _ _, verifyResult_file _ _ _ _, ?_⟩
  rw [hcl]
  simp

/-- Witness for `C1_resume_range_append`: resuming a 1-byte file against
a declared size of 3, a 2-byte body arrives; the request is ranged at
offset 1 and the final size is `1 + 2`. -/
theorem C1_resume_range_append_w :
    (download_file_with_progress (fun _ => 1)
        (fun _ => .success ⟨some 2, [[1, 2]], none⟩) ("u") (some [7])
        (some 3)).request = some ⟨("u"), some 1⟩ ∧
    (download_file_with_progress (fun _ => 1)
        (fun _ => .success ⟨some 2, [[1, 2]], none⟩) ("u") (some [7])
        (some 3)).file = some ([7] ++ [1, 2]) ∧
    (([7] ++ [1, 2] : List Nat)).length = 1 + 2 :=
  C1_resume_range_append (fun _ => 1)
    (fun _ => .success ⟨some 2, [[1, 2]], none⟩) ("u") [7] 3
    ⟨some 2, [[1, 2]], none⟩ (by decide) rfl rfl (by decide) rfl

/-- C2 counterexample: an asset with declared size `0` whose target file
exists with the same size `0` is not skipped — the truthiness test of
line 47 treats `expected_size = 0` as absent, so a ranged network request
is issued and the outcome is not `alreadyComplete`. -/
theorem C2_cex_zero_size_not_skipped :
    (download_file_with_progress (fun _ => 1) (fun _ => .connFailure ("e"))
        ("u") (some []) (some 0)).request = some ⟨("u"), some 0⟩ ∧
    (download_file_with_progress (fun _ => 1) (fun _ => .connFailure ("e"))
        ("u") (some []) (some 0)).outcome ≠ .alreadyComplete := by
  constructor
  · rfl
  · decide

/-- C2 (amended to positive declared sizes): for every asset whose
declared size is positive and whose target file exists with exactly that
size, the engine issues no network request, returns the already-complete
outcome and leaves the file unchanged. -/
theorem C2_skip_when_sizes_match (times : Nat → ℚ) (net : HttpRequest → NetResult)
    (url : String) (content : List Nat) (n : Nat)
    (hn : 0 < n) (hlen : content.length = n) :
    download_file_with_progress times net url (some content) (some n)
      = ⟨.alreadyComplete, some content, none, []⟩ := by
  have hs : skipCond (some n) content.length := by
    refine ⟨?_, by rw [hlen]⟩
    simp only [pyTruthyNat, bne_iff_ne, ne_eq, decide_eq_true_eq]
    omega
  simp [download_file_with_progress, hs]

/-- Witness for `C2_skip_when_sizes_match` at a concrete input. -/
theorem C2_skip_when_sizes_match_w :
    download_file_with_progress (fun _ => 1) (fun _ => .connFailure ("e")) ("u")
        (some [5]) (some 1) = ⟨.alreadyComplete, some [5], none, []⟩ :=
  C2_skip_when_sizes_match (fun _ => 1) (fun _ => .connFailure ("e")) ("u") [5] 1
    (by decide) (by decide)

/-- C3 counterexample: an asset with declared size `0` whose stream
delivers one byte completes with an on-disk size of `1 ≠ 0`, yet the
engine reports `completed`, not `sizeMismatch` — the truthiness test of
line 88 skips verification when `expected_size` is `0`. -/
theorem C3_cex_zero_size_no_mismatch :
    (download_file_with_progress (fun _ => 1)
        (fun _ => .success ⟨some 1, [[5]], none⟩) ("u") none (some 0)).outcome
      = .completed ∧
    (download_file_with_progress (fun _ => 1)
        (fun _ => .success ⟨some 1, [[5]], none⟩) ("u") none (some 0)).file
      = some [5] :=
  ⟨rfl, rfl⟩

/-- C3 (amended to positive declared sizes): for every completed stream of
an asset with positive declared size, the on-disk size is compared with
the declared size — equal yields `completed`, unequal `sizeMismatch` —
and either way the outcome is recorded and the loop continues with the
remaining assets. -/
theorem C3_size_check_continues (times : Nat → ℚ) (net : HttpRequest → NetResult)
    (dir : String) (a : Asset) (rest : List Asset) (fs : FileSystem)
    (resp : StreamResponse) (n : Nat)
    (hsize : a.size = n) (hn : 0 < n)
    (hskip : ∀ c, fs.lookup (dir ++ "/" ++ a.name) = some c → c.length ≠ n)
    (hnet : net (requestFor a.browser_download_url
        (fs.lookup (dir ++ "/" ++ a.name))) = .success resp)
    (herr : resp.streamError = none)
    (hch : ∀ c ∈ resp.chunks, c ≠ [])
    (hfz : resp.contentLength.getD 0
        + ((fs.lookup (dir ++ "/" ++ a.name)).getD []).length ≠ 0
      ∨ resp.chunks = []) :
    (downloadAssets times net dir (a :: rest) fs).2 =
      (a.name,
        if (((fs.lookup (dir ++ "/" ++ a.name)).getD []) ++ resp.chunks.join).length = n
        then DownloadOutcome.completed
        else DownloadOutcome.sizeMismatch)
      :: (downloadAssets times net dir rest
            (fs.setFile (dir ++ "/" ++ a.name)
              (((fs.lookup (dir ++ "/" ++ a.name)).getD []) ++ resp.chunks.join))).2 := by
  subst hsize
  have hs : ∀ c, fs.lookup (dir ++ "/" ++ a.name) = some c →
      ¬ skipCond (some a.size) c.length := by
    rintro c hcl ⟨-, h2⟩
    exact hskip c hcl (by injection h2 with h; omega)
  obtain ⟨progress, hrun⟩ := runTransfer_ranOff times net
    (requestFor a.browser_download_url (fs.lookup (dir ++ "/" ++ a.name)))
    ((fs.lookup (dir ++ "/" ++ a.name)).getD []) (some a.size)
    (fs.lookup (dir ++ "/" ++ a.name)) resp hnet hch hfz
  have hdl : download_file_with_progress times net a.browser_download_url
      (fs.lookup (dir ++ "/" ++ a.name)) (some a.size) =
      verifyResult (some a.size)
        (((fs.lookup (dir ++ "/" ++ a.name)).getD []) ++ resp.chunks.join)
        (requestFor a.browser_download_url (fs.lookup (dir ++ "/" ++ a.name)))
        progress := by
    rw [download_transfer times net a.browser_download_url
      (fs.lookup (dir ++ "/" ++ a.name)) (some a.size) hs, hrun, herr]
  have hout := verifyResult_outcome_pos a.size hn
    (((fs.lookup (dir ++ "/" ++ a.name)).getD []) ++ resp.chunks.join)
    (requestFor a.browser_download_url (fs.lookup (dir ++ "/" ++ a.name))) progress
  have hcons := downloadAssets_cons times net dir a rest fs
    (fs.setFile (dir ++ "/" ++ a.name)
      (((fs.lookup (dir ++ "/" ++ a.name)).getD []) ++ resp.chunks.join))
    (verifyResult (some a.size)
      (((fs.lookup (dir ++ "/" ++ a.name)).getD []) ++ resp.chunks.join)
      (requestFor a.browser_download_url (fs.lookup (dir ++ "/" ++ a.name)))
      progress)
    hdl
    (by rw [verifyResult_file])
    (by intro e h; rw [hout] at h; revert h; split <;> simp)
  rw [hcons, hout]

/-- Witness for `C3_size_check_continues`: a stream of one byte against a
declared size of `2` is reported as a size mismatch and the next asset is
still processed. -/
theorem C3_size_check_continues_w :
    (downloadAssets (fun _ => 1)
      (fun r => if r.url == "u" then .success ⟨some 1, [[9]], none⟩
        else .connFailure ("x"))
      ("out") [⟨("f"), 2, ("u")⟩, ⟨("g"), 1, ("v")⟩] []).2 =
      (("f"), DownloadOutcome.sizeMismatch)
      :: (downloadAssets (fun _ => 1)
          (fun r => if r.url == "u" then .success ⟨some 1, [[9]], none⟩
            else .connFailure ("x"))
          ("out") [⟨("g"), 1, ("v")⟩]
          (FileSystem.setFile [] ("out" ++ "/" ++ "f") [9])).2 :=
  C3_size_check_continues (fun _ => 1)
    (fun r => if r.url == "u" then .success ⟨some 1, [[9]], none⟩
      else .connFailure ("x"))
    ("out") ⟨("f"), 2, ("u")⟩ [⟨("g"), 1, ("v")⟩] [] ⟨some 1, [[9]], none⟩ 2
    rfl (by decide) (fun c h => Option.noConfusion h) rfl rfl (by decide)
    (Or.inl (by decide))

/-- C4 counterexample: a server response without a `Content-Length` header
on a fresh download makes line 71 divide by zero; the resulting
`ZeroDivisionError` is not an `HTTPError`/`URLError`, so it escapes the
`except` clause and aborts the batch — the second asset is never
processed. -/
theorem C4_cex_crash_aborts_batch :
    (downloadAssets (fun _ => 1)
      (fun r => if r.url == "u1" then .success ⟨none, [[1]], none⟩
        else .connFailure ("x"))
      ("out") [⟨("a"), 5, ("u1")⟩, ⟨("b"), 5, ("u2")⟩] []).2
      = [(("a"), .crashed ("ZeroDivisionError"))] :=
  rfl

/-- C4 (amended to transport failures): an `HTTPError`/`URLError` raised
while streaming one asset is caught at that asset's boundary: the outcome
is `transferFailed`, the partially-written bytes stay on disk as written,
and the loop continues with the remaining assets. -/
theorem C4_transport_failure_continues (times : Nat → ℚ)
    (net : HttpRequest → NetResult) (dir : String) (a : Asset)
    (rest : List Asset) (fs : FileSystem) (resp : StreamResponse) (e : String)
    (hskip : ∀ c, fs.lookup (dir ++ "/" ++ a.name) = some c →
      a.size = 0 ∨ c.length ≠ a.size)
    (hnet : net (requestFor a.browser_download_url
        (fs.lookup (dir ++ "/" ++ a.name))) = .success resp)
    (herr : resp.streamError = some e)
    (hch : ∀ c ∈ resp.chunks, c ≠ [])
    (hfz : resp.contentLength.getD 0
        + ((fs.lookup (dir ++ "/" ++ a.name)).getD []).length ≠ 0
      ∨ resp.chunks = []) :
    (downloadAssets times net dir (a :: rest) fs).2 =
      (a.name, DownloadOutcome.transferFailed e)
      :: (downloadAssets times net dir rest
            (fs.setFile (dir ++ "/" ++ a.name)
              (((fs.lookup (dir ++ "/" ++ a.name)).getD []) ++ resp.chunks.join))).2 ∧
    (fs.setFile (dir ++ "/" ++ a.name)
        (((fs.lookup (dir ++ "/" ++ a.name)).getD []) ++ resp.chunks.join)).lookup
        (dir ++ "/" ++ a.name)
      = some (((fs.lookup (dir ++ "/" ++ a.name)).getD []) ++ resp.chunks.join) := by
  have hs : ∀ c, fs.lookup (dir ++ "/" ++ a.name) = some c →
      ¬ skipCond (some a.size) c.length := by
    rintro c hcl ⟨h1, h2⟩
    rcases hskip c hcl with h | h
    · rw [h] at h1
      simp [pyTruthyNat] at h1
    · exact h (by injection h2 with h3; omega)
  obtain ⟨progress, hrun⟩ := runTransfer_ranOff times net
    (requestFor a.browser_download_url (fs.lookup (dir ++ "/" ++ a.name)))
    ((fs.lookup (dir ++ "/" ++ a.name)).getD []) (some a.size)
    (fs.lookup (dir ++ "/" ++ a.name)) resp hnet hch hfz
  have hdl : download_file_with_progress times net a.browser_download_url
      (fs.lookup (dir ++ "/" ++ a.name)) (some a.size) =
      ⟨.transferFailed e,
        some (((fs.lookup (dir ++ "/" ++ a.name)).getD []) ++ resp.chunks.join),
        some (requestFor a.browser_download_url
          (fs.lookup (dir ++ "/" ++ a.name))), progress⟩ := by
    rw [download_transfer times net a.browser_download_url
      (fs.lookup (dir ++ "/" ++ a.name)) (some a.size) hs, hrun, herr]
  have hcons := downloadAssets_cons times net dir a rest fs
    (fs.setFile (dir ++ "/" ++ a.name)
      (((fs.lookup (dir ++ "/" ++ a.name)).getD []) ++ resp.chunks.join))
    ⟨.transferFailed e,
      some (((fs.lookup (dir ++ "/" ++ a.name)).getD []) ++ resp.chunks.join),
      some (requestFor a.browser_download_url
        (fs.lookup (dir ++ "/" ++ a.name))), progress⟩
    hdl rfl (by intro x h; exact DownloadOutcome.noConfusion h)
  exact ⟨by rw [hcons], FileSystem.lookup_setFile _ _ _⟩

/-- Witness for `C4_transport_failure_continues`: a connection dropped
after one delivered chunk leaves that chunk on disk and the next asset is
still processed. -/
theorem C4_transport_failure_continues_w :
    (downloadAssets (fun _ => 1)
      (fun r => if r.url == "u" then .success ⟨some 9, [[7]], some ("reset")⟩
        else .connFailure ("x"))
      ("out") [⟨("f"), 9, ("u")⟩, ⟨("g"), 1, ("v")⟩] []).2 =
      (("f"), DownloadOutcome.transferFailed ("reset"))
      :: (downloadAssets (fun _ => 1)
          (fun r => if r.url == "u" then .success ⟨some 9, [[7]], some ("reset")⟩
            else .connFailure ("x"))
          ("out") [⟨("g"), 1, ("v")⟩]
          (FileSystem.setFile [] ("out" ++ "/" ++ "f") [7])).2 ∧
    (FileSystem.setFile [] ("out" ++ "/" ++ "f") [7]).lookup ("out" ++ "/" ++ "f")
      = some [7] :=
  C4_transport_failure_continues (fun _ => 1)
    (fun r => if r.url == "u" then .success ⟨some 9, [[7]], some ("reset")⟩
      else .connFailure ("x"))
    ("out") ⟨("f"), 9, ("u")⟩ [⟨("g"), 1, ("v")⟩] [] ⟨some 9, [[7]], some ("reset")⟩
    ("reset") (fun c h => Option.noConfusion h) rfl rfl (by decide)
    (Or.inl (by decide))

/-- C10: for every download whose target file already exists — whatever
its size, also larger than the declared size — the file is only ever
appended to (every byte below the pre-existing size is unchanged), and
when the existing size exceeds the declared size a range request starting
at the existing size is still issued. -/
theorem C10_append_only (times : Nat → ℚ) (net : HttpRequest → NetResult)
    (url : String) (content : List Nat) (expected : Option Nat) :
    (∃ t, (download_file_with_progress times net url (some content) expected).file
        = some (content ++ t)) ∧
    (∀ n, expected = some n → n < content.length →
      (download_file_with_progress times net url (some content) expected).request
        = some ⟨url, some content.length⟩) := by
  constructor
  · by_cases hs : skipCond expected content.length
    · exact ⟨[], by simp [download_file_with_progress, hs]⟩
    · rw [download_resume_transfer times net url content expected hs]
      unfold runTransfer
      cases hnet : net ⟨url, some content.length⟩ with
      | connFailure e => exact ⟨[], by simp⟩
      | success resp =>
        obtain ⟨t, ht⟩ := streamLoop_file_append times
          (resp.contentLength.getD 0 + content.length) resp.chunks content
          content.length 0
        rcases hres : streamLoop times (resp.contentLength.getD 0 + content.length)
            resp.chunks content content.length 0 with ⟨cnt, prog, st⟩
        rw [hres] at ht
        simp only at ht
        refine ⟨t, ?_⟩
        cases st
        · cases herr : resp.streamError
          · simp [hres, herr, verifyResult_file, ht]
          · simp [hres, herr, ht]
        · simp [hres, verifyResult_file, ht]
        · simp [hres, ht]
  · intro n he hlt
    have hs : ¬ skipCond expected content.length := by
      rw [he]
      simp only [skipCond, pyTruthyNat, Option.some.injEq, not_and]
      intro _ h
      omega
    rw [download_resume_transfer times net url content expected hs]
    unfold runTransfer
    cases hnet : net ⟨url, some content.length⟩ with
    | connFailure e => rfl
    | success resp =>
      rcases hres : streamLoop times (resp.contentLength.getD 0 + content.length)
          resp.chunks content content.length 0 with ⟨cnt, prog, st⟩
      cases st
      · cases herr : resp.streamError
        · simp [hres, herr, verifyResult_request]
        · simp [hres, herr]
      · simp [hres, verifyResult_request]
      · simp [hres]

/-- C5 counterexample: an explicitly requested tag that is the empty
string differs from the embedded tag `v1`, yet no conflicting-tag error is
raised and a network call is made — Python truthiness of line 117 treats
`--release ""` as absent. -/
theorem C5_cex_empty_tag_bypasses_conflict :
    (fetch_release_data (fun _ => .error ("e"))
        ("https://github.com/a/b/releases/tag/v1") (some (""))).2
      = ["https://api.github.com/repos/a/b/releases/tags/v1"] ∧
    (fetch_release_data (fun _ => .error ("e"))
        ("https://github.com/a/b/releases/tag/v1") (some (""))).1
      = .error ("Error fetching release data: e") :=
  ⟨rfl, rfl⟩

/-- C5 (amended to non-empty requested tags): for every web-style
reference embedding a release tag and a non-empty explicitly requested
tag that differs from the embedded one, resolution fails with the
conflicting-tag error and no network call is made. -/
theorem C5_conflict_no_network (apiFetch : String → Except String ReleaseManifest)
    (url t : String)
    (h1 : pyStartsWith apiUrlStart url = false)
    (h2 : pyStartsWith webUrlStart url = true)
    (h3 : ¬ (webParts url).length < 2)
    (h4 : pyInStr releasesTagMarker url = true)
    (h5 : t ≠ "")
    (h6 : t ≠ urlReleaseTag url) :
    fetch_release_data apiFetch url (some t)
      = (.error (conflictMsg (urlReleaseTag url) t), []) := by
  have hc : tagConflict (some t) (urlReleaseTag url) = true := by
    simp only [tagConflict, Bool.and_eq_true, Bool.not_eq_true', beq_eq_false_iff_ne,
      ne_eq]
    exact ⟨h5, h6⟩
  unfold fetch_release_data resolveReference
  simp [h1, h2, h3, h4, hc]

/-- Witness for `C5_conflict_no_network` at a concrete reference. -/
theorem C5_conflict_no_network_w :
    fetch_release_data (fun _ => .error ("e"))
        ("https://github.com/acme/tool/releases/tag/v2.0") (some ("v1.0"))
      = (.error (conflictMsg (urlReleaseTag
          ("https://github.com/acme/tool/releases/tag/v2.0")) ("v1.0")), []) :=
  C5_conflict_no_network (fun _ => .error ("e"))
    ("https://github.com/acme/tool/releases/tag/v2.0") ("v1.0")
    rfl rfl (by decide) rfl (by decide) (by decide)

/-- C6 counterexample: an API-style reference embedding
`releases/tags/v2.0`, with no explicitly requested tag, resolves with no
tag at all — the embedded tag is ignored and the locator targets the
latest-release endpoint instead of the tag's endpoint. -/
theorem C6_cex_api_tag_ignored :
    resolveReference ("https://api.github.com/repos/acme/tool/releases/tags/v2.0")
        none
      = .ok ("acme", "tool", none) ∧
    (fetch_release_data (fun _ => .error ("e"))
        ("https://api.github.com/repos/acme/tool/releases/tags/v2.0") none).2
      = ["https://api.github.com/repos/acme/tool/releases/latest"] :=
  ⟨rfl, rfl⟩

/-- C6 (amended): for every API-style reference, only owner and repo are
extracted — any embedded tag path is ignored — so with no explicitly
requested tag the resolved tag is `none` and the locator targets the
latest-release endpoint. -/
theorem C6_api_reference_targets_latest
    (apiFetch : String → Except String ReleaseManifest) (url : String)
    (h1 : pyStartsWith apiUrlStart url = true)
    (h2 : ¬ (apiParts url).length < 2) :
    resolveReference url none
      = .ok ((apiParts url).getD 0 "", (apiParts url).getD 1 "", none) ∧
    (fetch_release_data apiFetch url none).2
      = [buildApiUrl ((apiParts url).getD 0 "") ((apiParts url).getD 1 "") none] := by
  have hres : resolveReference url none
      = .ok ((apiParts url).getD 0 "", (apiParts url).getD 1 "", none) := by
    unfold resolveReference
    simp [h1, h2]
  refine ⟨hres, ?_⟩
  unfold fetch_release_data
  rw [hres]
  dsimp only
  cases hf : apiFetch (buildApiUrl ((apiParts url).getD 0 "")
      ((apiParts url).getD 1 "") none) with
  | ok m => rfl
  | error e => rfl

/-- Witness for `C6_api_reference_targets_latest` at a concrete API
reference embedding a tag. -/
theorem C6_api_reference_targets_latest_w :
    resolveReference ("https://api.github.com/repos/o/r/releases/tags/v9") none
      = .ok ((apiParts ("https://api.github.com/repos/o/r/releases/tags/v9")).getD 0 "",
          (apiParts ("https://api.github.com/repos/o/r/releases/tags/v9")).getD 1 "",
          none) ∧
    (fetch_release_data (fun _ => .error ("e"))
        ("https://api.github.com/repos/o/r/releases/tags/v9") none).2
      = [buildApiUrl
          ((apiParts ("https://api.github.com/repos/o/r/releases/tags/v9")).getD 0 "")
          ((apiParts ("https://api.github.com/repos/o/r/releases/tags/v9")).getD 1 "")
          none] :=
  C6_api_reference_targets_latest (fun _ => .error ("e"))
    ("https://api.github.com/repos/o/r/releases/tags/v9") rfl (by decide)

/-- C7: for every asset list and every non-empty include set (with no
exclude filter active), selection succeeds — names matching no asset are
silently absent, not an error — and returns an order-preserving
subsequence of the input containing exactly the assets whose name is in
the include set. -/
theorem C7_include_filter (assets : List Asset) (incl : List String)
    (excl : Option (List String))
    (hincl : incl ≠ []) (hexcl : pyTruthyList excl = false) :
    ∃ sel, filter_assets assets (some incl) excl = .ok sel ∧
      sel.Sublist assets ∧
      ∀ a, a ∈ sel ↔ a ∈ assets ∧ a.name ∈ incl := by
  have hI : pyTruthyList (some incl) = true := by
    simp [pyTruthyList, List.isEmpty_iff, hincl]
  refine ⟨assets.filter (fun a => incl.contains a.name), ?_, ?_, ?_⟩
  · simp [filter_assets, hI, hexcl]
  · exact List.filter_sublist assets
  · intro a
    simp [List.mem_filter]

/-- Witness for `C7_include_filter`: only `b.zip` is selected; the
include name matching nothing is silently absent. -/
theorem C7_include_filter_w :
    ∃ sel, filter_assets [⟨("a.zip"), 1, ("x")⟩, ⟨("b.zip"), 2, ("y")⟩]
        (some ["b.zip", "zzz"]) none = .ok sel ∧
      sel.Sublist [⟨("a.zip"), 1, ("x")⟩, ⟨("b.zip"), 2, ("y")⟩] ∧
      ∀ a, a ∈ sel ↔ a ∈ [⟨("a.zip"), 1, ("x")⟩, ⟨("b.zip"), 2, ("y")⟩]
        ∧ a.name ∈ ["b.zip", "zzz"] :=
  C7_include_filter [⟨("a.zip"), 1, ("x")⟩, ⟨("b.zip"), 2, ("y")⟩]
    ["b.zip", "zzz"] none (by decide) rfl

/-- C8 counterexample: the reference `https://github.com//x` is accepted —
two path segments are present — but the first segment, hence the owner,
is the empty string. -/
theorem C8_cex_empty_owner_accepted :
    resolveReference ("https://github.com//x") none = .ok ("", "x", none) :=
  rfl

/-- C8 (amended): for every accepted reference, owner and repo are exactly
the first two `/`-separated segments after the recognised URL head (of
which at least two exist); they are therefore non-empty whenever those
segments are, but may be empty strings. -/
theorem C8_owner_repo_are_first_segments (url : String) (tag : Option String)
    (o r : String) (t : Option String)
    (h : resolveReference url tag = .ok (o, r, t)) :
    ∃ parts : List String,
      (parts = apiParts url ∨ parts = webParts url) ∧
      2 ≤ parts.length ∧ o = parts.getD 0 "" ∧ r = parts.getD 1 "" := by
  unfold resolveReference at h
  by_cases h1 : pyStartsWith apiUrlStart url = true
  · rw [if_pos h1] at h
    by_cases hl : (apiParts url).length < 2
    · rw [if_pos hl] at h
      exact absurd h (by simp)
    · rw [if_neg hl] at h
      simp only [Except.ok.injEq, Prod.mk.injEq] at h
      exact ⟨apiParts url, Or.inl rfl, by omega, h.1.symm, h.2.1.symm⟩
  · rw [if_neg h1] at h
    by_cases h2 : pyStartsWith webUrlStart url = true
    · rw [if_pos h2] at h
      by_cases hl : (webParts url).length < 2
      · rw [if_pos hl] at h
        exact absurd h (by simp)
      · rw [if_neg hl] at h
        by_cases h4 : pyInStr releasesTagMarker url = true
        · rw [if_pos h4] at h
          by_cases hc : tagConflict tag (urlReleaseTag url) = true
          · rw [if_pos hc] at h
            exact absurd h (by simp)
          · rw [if_neg hc] at h
            simp only [Except.ok.injEq, Prod.mk.injEq] at h
            exact ⟨webParts url, Or.inr rfl, by omega, h.1.symm, h.2.1.symm⟩
        · rw [if_neg h4] at h
          simp only [Except.ok.injEq, Prod.mk.injEq] at h
          exact ⟨webParts url, Or.inr rfl, by omega, h.1.symm, h.2.1.symm⟩
    · rw [if_neg h2] at h
      exact absurd h (by simp)

/-- Witness for `C8_owner_repo_are_first_segments` at a concrete accepted
reference. -/
theorem C8_owner_repo_are_first_segments_w :
    ∃ parts : List String,
      (parts = apiParts ("https://github.com/acme/tool")
        ∨ parts = webParts ("https://github.com/acme/tool")) ∧
      2 ≤ parts.length ∧ ("acme") = parts.getD 0 "" ∧ ("tool") = parts.getD 1 "" :=
  C8_owner_repo_are_first_segments ("https://github.com/acme/tool") none
    ("acme") ("tool") none rfl

/-- C9 counterexample: resuming a 5-byte file, one 3-byte chunk arrives
after 1 second; the reported speed is `8` bytes/second (the cumulative
counter starts at the pre-existing size, line 61), not the
`3 / 1 = 3` bytes moved during the current attempt that the claim
predicts. -/
theorem C9_cex_resume_speed_overcounts :
    (download_file_with_progress (fun _ => 1)
        (fun _ => .success ⟨some 3, [[1, 2, 3]], none⟩) ("u")
        (some [9, 9, 9, 9, 9]) (some 100)).progress
      = [⟨8, 1, pySpeed 8 1⟩] ∧
    pySpeed 8 1 = 8 ∧ ((8 : ℚ)) ≠ 3 / 1 := by
  refine ⟨rfl, ?_, by norm_num⟩
  norm_num [pySpeed]

/-- C9 (amended): after each chunk the reported throughput equals the
cumulative byte counter — which starts at the pre-existing size, so on a
resume it includes the bytes already on disk — divided by the elapsed
time, with zero (or negative) elapsed time treated as zero throughput
rather than a division fault. -/
theorem C9_speed_from_cumulative_bytes (times : Nat → ℚ)
    (net : HttpRequest → NetResult) (url : String)
    (existingFile : Option (List Nat)) (expected : Option Nat)
    (hs : ∀ c, existingFile = some c → ¬ skipCond expected c.length) :
    ∀ obs ∈ (download_file_with_progress times net url existingFile
        expected).progress,
      ∃ moved, obs.bytesSoFar = (existingFile.getD []).length + moved ∧
        obs.speed = (if 0 < obs.elapsed
          then ((((existingFile.getD []).length + moved : Nat)) : ℚ) / obs.elapsed
          else 0) := by
  rw [download_transfer times net url existingFile expected hs]
  unfold runTransfer
  cases hnet : net (requestFor url existingFile) with
  | connFailure e =>
    intro obs h
    simp at h
  | success resp =>
    have hp := streamLoop_progress times
      (resp.contentLength.getD 0 + (existingFile.getD []).length) resp.chunks
      (existingFile.getD []) (existingFile.getD []).length 0
    rcases hres : streamLoop times
        (resp.contentLength.getD 0 + (existingFile.getD []).length) resp.chunks
        (existingFile.getD []) (existingFile.getD []).length 0
      with ⟨cnt, prog, st⟩
    rw [hres] at hp
    simp only at hp
    intro obs h
    have hobs : obs ∈ prog := by
      cases st with
      | ranOff =>
        cases herr : resp.streamError with
        | none => simpa [hres, herr, verifyResult_progress] using h
        | some e => simpa [hres, herr] using h
      | brokeEarly => simpa [hres, verifyResult_progress] using h
      | crashed => simpa [hres] using h
    obtain ⟨m, h1, h2⟩ := hp obs hobs
    refine ⟨m, h1, ?_⟩
    rw [h2]
    unfold pySpeed
    rfl

/-- Witness for `C9_speed_from_cumulative_bytes` on a resumed download,
instantiated at the single observation the engine emits there. -/
theorem C9_speed_from_cumulative_bytes_w :
    ∃ moved, (⟨8, 1, pySpeed 8 1⟩ : ProgressObs).bytesSoFar = 5 + moved ∧
      (⟨8, 1, pySpeed 8 1⟩ : ProgressObs).speed = (if 0 < (⟨8, 1, pySpeed 8 1⟩ : ProgressObs).elapsed
        then (((5 + moved : Nat)) : ℚ) / (⟨8, 1, pySpeed 8 1⟩ : ProgressObs).elapsed
        else 0) :=
  C9_speed_from_cumulative_bytes (fun _ => 1)
    (fun _ => .success ⟨some 3, [[1, 2, 3]], none⟩) ("u")
    (some [9, 9, 9, 9, 9]) (some 100)
    (fun c h => by cases h; decide)
    ⟨8, 1, pySpeed 8 1⟩ (List.Mem.head [])

/-- Witness for `C10_append_only`: its range-request part applied at a
concrete input where the existing file (2 bytes) exceeds the declared
size (1 byte). -/
theorem C10_append_only_w :
    (∃ t, (download_file_with_progress (fun _ => 1) (fun _ => .connFailure ("e"))
        ("u") (some [3, 4]) (some 1)).file = some ([3, 4] ++ t)) ∧
    (download_file_with_progress (fun _ => 1) (fun _ => .connFailure ("e"))
        ("u") (some [3, 4]) (some 1)).request = some ⟨("u"), some 2⟩ :=
  ⟨(C10_append_only (fun _ => 1) (fun _ => .connFailure ("e")) ("u") [3, 4]
      (some 1)).1,
   (C10_append_only (fun _ => 1) (fun _ => .connFailure ("e")) ("u") [3, 4]
      (some 1)).2 1 rfl (by decide)⟩

end GRF
